import Mathlib

/-!
Verification of the card-app counters store, card directory, contact-file
builder and admin flows (src/app.py) against its specification.

The embedding models JSON documents as an inductive `Json` type, Python
dicts as association lists (Python 3.7+ dicts preserve insertion order:
assignment of an existing key keeps its position, a new key is appended),
and the on-disk counters / auth files as a `FileContent` value.  Python
code that can raise an uncaught exception is modelled with `Option` (or
with an `Option` first component), `none` standing for the exception.
-/

namespace CardApp

/-- JSON values, as produced by `json.load`.  Numbers are modelled as
integers: the application only ever writes integer counter values. -/
inductive Json where
  | null : Json
  | bool (b : Bool) : Json
  | num (n : Int) : Json
  | str (s : String) : Json
  | arr (elems : List Json) : Json
  | obj (fields : List (String × Json)) : Json

/-- A Python dict with string keys, in insertion order. -/
abbrev AList := List (String × Json)

/-- Dict lookup, `d.get(key)` / `d[key]`. -/
def alookup : AList → String → Option Json
  | [], _ => none
  | (k, v) :: rest, key => if k = key then some v else alookup rest key

/-- Dict assignment `d[key] = val`: replaces in place if the key exists,
appends otherwise (Python insertion-order semantics). -/
def aset : AList → String → Json → AList
  | [], key, val => [(key, val)]
  | (k, v) :: rest, key, val =>
      if k = key then (k, val) :: rest else (k, v) :: aset rest key val

/-- `d.setdefault(key, val)`: inserts `key ↦ val` only when absent. -/
def asetdefault (d : AList) (key : String) (val : Json) : AList :=
  if (alookup d key).isSome then d else d ++ [(key, val)]

/-- `d.pop(key, None)`: removes the key.  Dict keys are unique, so
removing every occurrence from the association list models this. -/
def aremove (d : AList) (key : String) : AList :=
  d.filter (fun kv => kv.1 ≠ key)

/-- Python truthiness of a JSON value (`bool(x)`). -/
def pyTruthy : Json → Bool
  | .null => false
  | .bool b => b
  | .num n => n != 0
  | .str s => !s.isEmpty
  | .arr xs => !xs.isEmpty
  | .obj fs => !fs.isEmpty

/-- Python `int(x)` on a JSON value; `none` when it raises
(`TypeError` / `ValueError`). -/
def pyInt : Json → Option Int
  | .num n => some n
  | .str s => s.trim.toInt?
  | .bool true => some 1
  | .bool false => some 0
  | _ => none

/-- Is the value a JSON object (`isinstance(v, dict)`)? -/
def Json.isObj : Json → Bool
  | .obj _ => true
  | _ => false

/-- Python `str(x)` as used by f-string interpolation.  Scalars are
rendered exactly; the rendering of containers is abstracted (every value a
route interpolates is a scalar card field, a string in practice). -/
def pyStrOf : Json → String
  | .null => "None"
  | .bool true => "True"
  | .bool false => "False"
  | .num n => toString n
  | .str s => s
  | .arr _ => "[...]"
  | .obj _ => "..."

/-- State of an on-disk JSON file. -/
inductive FileContent where
  | missing : FileContent
  | unparseable : FileContent
  | parsed (j : Json) : FileContent

/-- The six known counters with their zero defaults: `DEFAULT_COUNTERS`
(src/app.py lines 67-74). -/
def DEFAULT_COUNTERS : AList :=
  [("contact_shared", .num 0),
   ("whatsapp_clicks", .num 0),
   ("email_clicks", .num 0),
   ("map_clicks", .num 0),
   ("share_clicks", .num 0),
   ("nfc_scans", .num 0)]

/-- `_save_counters(data)` (lines 77-81): the temp-file-plus-rename write
leaves the file holding exactly the serialized document. -/
def save_counters (d : AList) : FileContent :=
  .parsed (.obj d)

/-- The legacy-migration guard (lines 103-105): some default counter name
is a top-level key and no value is a dict. -/
def migrationCond (d : AList) : Bool :=
  (DEFAULT_COUNTERS.any fun kv => (alookup d kv.1).isSome) &&
    !(d.any fun kv => kv.2.isObj)

/-- The migration loop body (lines 110-112): build the per-slug map with
`int(data.get(k, v))`; `none` when some `int()` call raises. -/
def migrateFields : List (String × Json) → AList → Option AList
  | [], _ => some []
  | (k, v) :: rest, d =>
      match pyInt ((alookup d k).getD v) with
      | some n => (migrateFields rest d).map (fun tail => (k, .num n) :: tail)
      | none => none

/-- `_load_counters()` (lines 84-120), returning the loaded document and
the resulting file state.  `dslug` stands for the `get_default_slug()`
result (with its internal fallback to "wjm").  A missing file is saved
back as the empty document; an unparseable file lands in the `except`
branch, which resets it; a parsed non-object just gives an empty document
(the file is not rewritten in that branch); a parsed object may be
migrated from the legacy flat shape, and a failing `int()` during
migration also lands in the `except` reset branch. -/
def load_counters (dslug : String) (fc : FileContent) : AList × FileContent :=
  match fc with
  | .missing => ([], save_counters [])
  | .unparseable => ([], save_counters [])
  | .parsed j =>
      match j with
      | .obj d =>
          if migrationCond d then
            match migrateFields DEFAULT_COUNTERS d with
            | some inner => ([(dslug, .obj inner)], save_counters [(dslug, .obj inner)])
            | none => ([], save_counters [])
          else (d, fc)
      | _ => ([], fc)

/-- The defaulting loop shared by `increment_counter` and `get_counters`
(lines 126-127 and 138-139): `card_data.setdefault(k, v)` over
`DEFAULT_COUNTERS`. -/
def applyDefaults (cd : AList) : AList :=
  DEFAULT_COUNTERS.foldl (fun acc kv => asetdefault acc kv.1 kv.2) cd

/-- `data.get(slug, {})` followed by the defaulting loop: `none` when the
stored entry is not a dict (the `setdefault` call would raise). -/
def countersFor (data : AList) (slug : String) : Option AList :=
  match (alookup data slug).getD (.obj []) with
  | .obj cd => some (applyDefaults cd)
  | _ => none

/-- `increment_counter(slug, key)` (lines 123-132).  First component is
the returned new value (`none` when the code raises); second is the file
state afterwards. -/
def increment_counter (dslug : String) (fc : FileContent) (slug key : String) :
    Option Int × FileContent :=
  let ld := load_counters dslug fc
  match countersFor ld.1 slug with
  | some cd =>
      match pyInt ((alookup cd key).getD (.num 0)) with
      | some n =>
          (some (n + 1), save_counters (aset ld.1 slug (.obj (aset cd key (.num (n + 1))))))
      | none => (none, ld.2)
  | none => (none, ld.2)

/-- `get_counters(slug)` (lines 135-140): returns the slug's counters with
defaults filled in (`none` when the stored entry is not a dict); the file
state is whatever `_load_counters` left. -/
def get_counters (dslug : String) (fc : FileContent) (slug : String) :
    Option AList × FileContent :=
  let ld := load_counters dslug fc
  (countersFor ld.1 slug, ld.2)

/-- `get_card(slug)` (lines 52-59), given the `"cards"` map of the cards
document (`load_cards()["cards"]`, per the data model a JSON object).
Outer `none` models an exception (`dict(card)` on a truthy non-mapping
value); `some none` is the `return None` absent signal. -/
def get_card (cards : AList) (slug : String) : Option (Option AList) :=
  match alookup cards slug with
  | none => some none
  | some cj =>
      if pyTruthy cj then
        match cj with
        | .obj fields => some (some (aset fields "slug" (.str slug)))
        | _ => none
      else some none

/-- `is_admin_logged_in()` (lines 143-144): truthiness of the session's
`admin_logged_in` entry. -/
def is_admin_logged_in (sess : AList) : Bool :=
  pyTruthy ((alookup sess "admin_logged_in").getD .null)

/-- Always-safe characters of `urllib.parse.quote` with its default
`safe="/"`: ASCII alphanumerics, `_.-~` and `/`. -/
def quoteSafe (c : Char) : Bool :=
  c.isAlpha || c.isDigit || c = '_' || c = '.' || c = '-' || c = '~' || c = '/'

/-- Uppercase hexadecimal digit. -/
def hexDigit (n : Nat) : Char :=
  if n < 10 then Char.ofNat (48 + n) else Char.ofNat (55 + n)

/-- Percent-encode one byte. -/
def pctByte (b : Nat) : String :=
  String.mk ['%', hexDigit (b / 16), hexDigit (b % 16)]

/-- UTF-8 bytes of a code point (as Nats). -/
def utf8Bytes (n : Nat) : List Nat :=
  if n < 0x80 then [n]
  else if n < 0x800 then [0xC0 + n / 0x40, 0x80 + n % 0x40]
  else if n < 0x10000 then
    [0xE0 + n / 0x1000, 0x80 + (n / 0x40) % 0x40, 0x80 + n % 0x40]
  else
    [0xF0 + n / 0x40000, 0x80 + (n / 0x1000) % 0x40, 0x80 + (n / 0x40) % 0x40,
     0x80 + n % 0x40]

/-- `urllib.parse.quote(s)` with the default safe set. -/
def quote (s : String) : String :=
  s.data.foldl
    (fun acc c =>
      if quoteSafe c then acc.push c
      else acc ++ String.join ((utf8Bytes c.toNat).map pctByte))
    ""

/-- HTTP responses the modelled routes can produce.  Template rendering is
out of the spec's scope: a page response records only the data a claim
inspects. -/
inductive Response where
  | notFound : Response
  | redirect (url : String) (code : Nat) : Response
  | cardPage (slug : String) (shareCount : Json) : Response
  | loginPage (error : Option String) : Response
  | resetPage (error : Option String) (success : Option String) : Response
  | adminPage : Response
  | vcf (body : String) (filename : String) : Response
  | png (url : String) : Response
  | noContent : Response

/-- HTTP method of a request. -/
inductive Method where
  | get : Method
  | post : Method

/-- `"\r\n".join(lines)` (line 473). -/
def crlfJoin : List String → String
  | [] => ""
  | [x] => x
  | x :: y :: rest => x ++ "\r\n" ++ crlfJoin (y :: rest)

/-- The vCard line list (lines 458-471): fixed header, one f-string line
per required field (a missing key raises, modelled by the simultaneous
match), the photo line only when the encoded image is non-empty, then the
footer and a trailing empty line. -/
def buildVcfLines (c : AList) (encoded : String) : Option (List String) :=
  match alookup c "contact_save_name", alookup c "org", alookup c "title",
      alookup c "whatsapp_e164", alookup c "office_e164", alookup c "email",
      alookup c "website_url" with
  | some fn, some org, some title, some wa, some off, some em, some url =>
      some (["BEGIN:VCARD", "VERSION:3.0",
        "FN:" ++ pyStrOf fn,
        "ORG:" ++ pyStrOf org,
        "TITLE:" ++ pyStrOf title,
        "TEL;TYPE=CELL,VOICE:+" ++ pyStrOf wa,
        "TEL;TYPE=WORK,VOICE:+" ++ pyStrOf off,
        "EMAIL;TYPE=WORK:" ++ pyStrOf em,
        "URL:" ++ pyStrOf url]
        ++ (if encoded = "" then [] else ["PHOTO;ENCODING=b;TYPE=JPEG:" ++ encoded])
        ++ ["END:VCARD", ""])
  | _, _, _, _, _, _, _ => none

/-- Fields the card template reads with `c[...]` (lines 424-436); a
missing one raises `KeyError`. -/
def requiredCardFields : List String :=
  ["display_name", "contact_save_name", "org", "title", "whatsapp_display",
   "whatsapp_e164", "office_display", "office_e164", "email",
   "website_display", "website_url", "address_text", "maps_destination"]

/-- Route `GET /c/<slug>` (lines 415-440). -/
def route_card (cards : AList) (dslug : String) (fc : FileContent) (slug : String) :
    Option (Response × FileContent) :=
  match get_card cards slug with
  | none => none
  | some none => some (.notFound, fc)
  | some (some c) =>
      match get_counters dslug fc slug with
      | (some counters, fc₁) =>
          if requiredCardFields.all (fun k => (alookup c k).isSome) then
            some (.cardPage slug ((alookup counters "contact_shared").getD (.num 0)), fc₁)
          else none
      | (none, _) => none

/-- Route `GET /c/<slug>.vcf` (lines 443-483).  `photoRead p` models
reading and base64-encoding the file at path `p`; `none` is the caught
read failure, which leaves `encoded_image` empty. -/
def route_vcard (cards : AList) (dslug : String) (fc : FileContent) (slug : String)
    (photoRead : String → Option String) : Option (Response × FileContent) :=
  match get_card cards slug with
  | none => none
  | some none => some (.notFound, fc)
  | some (some c) =>
      match increment_counter dslug fc slug "contact_shared" with
      | (some _, fc₁) =>
          match (alookup c "photo_filename").getD (.str "profile.jpg") with
          | .str pname =>
              let encoded := (photoRead ("static/" ++ pname)).getD ""
              match buildVcfLines c encoded with
              | some lines =>
                  some (.vcf (crlfJoin lines) (slug.replace "/" "_" ++ ".vcf"), fc₁)
              | none => none
          | _ => none
      | (none, _) => none

/-- Route `GET /qr/<slug>.png` (lines 401-412): the response carries the
URL encoded in the QR image (image generation is delegated to a library
and out of scope). -/
def route_qr (cards : AList) (fc : FileContent) (slug hostUrl : String) :
    Option (Response × FileContent) :=
  match get_card cards slug with
  | none => none
  | some none => some (.notFound, fc)
  | some (some _) =>
      some (.png (hostUrl.dropRightWhile (· = '/') ++ "/go/nfc/" ++ slug), fc)

/-- Route `GET /go/whatsapp/<slug>` (lines 232-242); `text` is the query
parameter (`none` when absent, defaulted to `""`). -/
def route_go_whatsapp (cards : AList) (dslug : String) (fc : FileContent)
    (slug : String) (text : Option String) : Option (Response × FileContent) :=
  match get_card cards slug with
  | none => none
  | some none => some (.notFound, fc)
  | some (some c) =>
      match increment_counter dslug fc slug "whatsapp_clicks" with
      | (some _, fc₁) =>
          let msg := text.getD ""
          match alookup c "whatsapp_e164" with
          | none => none
          | some wa =>
              let base := "https://wa.me/" ++ pyStrOf wa
              if msg = "" then some (.redirect base 302, fc₁)
              else some (.redirect (base ++ "?text=" ++ quote msg) 302, fc₁)
      | (none, _) => none

/-- Route `GET /go/email/<slug>` (lines 245-252). -/
def route_go_email (cards : AList) (dslug : String) (fc : FileContent)
    (slug : String) (subject : Option String) : Option (Response × FileContent) :=
  match get_card cards slug with
  | none => none
  | some none => some (.notFound, fc)
  | some (some c) =>
      match increment_counter dslug fc slug "email_clicks" with
      | (some _, fc₁) =>
          let subj := subject.getD "Enquiry from Website"
          match alookup c "email" with
          | none => none
          | some em =>
              some (.redirect ("mailto:" ++ pyStrOf em ++ "?subject=" ++ quote subj) 302, fc₁)
      | (none, _) => none

/-- Route `GET /go/map/<slug>` (lines 255-262). -/
def route_go_map (cards : AList) (dslug : String) (fc : FileContent) (slug : String) :
    Option (Response × FileContent) :=
  match get_card cards slug with
  | none => none
  | some none => some (.notFound, fc)
  | some (some c) =>
      match increment_counter dslug fc slug "map_clicks" with
      | (some _, fc₁) =>
          let dest := pyStrOf ((alookup c "maps_destination").getD
            (.str "208%20Weltevreden%20Road%2C%20Northcliff"))
          some (.redirect ("https://www.google.com/maps/dir/?api=1&destination=" ++ dest) 302, fc₁)
      | (none, _) => none

/-- Route `GET /go/share/<slug>` (lines 486-493). -/
def route_go_share (cards : AList) (dslug : String) (fc : FileContent) (slug : String) :
    Option (Response × FileContent) :=
  match get_card cards slug with
  | none => none
  | some none => some (.notFound, fc)
  | some (some _) =>
      match increment_counter dslug fc slug "share_clicks" with
      | (some _, fc₁) => some (.noContent, fc₁)
      | (none, _) => none

/-- Route `GET /go/nfc/<slug>` (lines 496-502). -/
def route_go_nfc (cards : AList) (dslug : String) (fc : FileContent) (slug : String) :
    Option (Response × FileContent) :=
  match get_card cards slug with
  | none => none
  | some none => some (.notFound, fc)
  | some (some _) =>
      match increment_counter dslug fc slug "nfc_scans" with
      | (some _, fc₁) => some (.redirect ("/c/" ++ slug) 302, fc₁)
      | (none, _) => none

/-- Route `GET /admin` (lines 265-271).  `build_admin_rows` loads the
counters document and calls `setdefault` on each card's entry (raising if
an entry is not a dict); the rendered dashboard itself is abstracted as
`Response.adminPage`. -/
def route_admin (cards : AList) (dslug : String) (fc : FileContent) (sess : AList) :
    Option (Response × FileContent) :=
  if is_admin_logged_in sess then
    let ld := load_counters dslug fc
    if cards.all (fun kv =>
        ((alookup ld.1 kv.1).getD (.obj [])).isObj) then
      some (.adminPage, ld.2)
    else none
  else some (.redirect "/admin/login" 302, fc)

/-- Route `GET|POST /admin/login` (lines 320-328).  `pwOk` is the
`password_ok` predicate (hash checking is delegated to werkzeug and out of
scope); the returned session is the request's session afterwards. -/
def route_admin_login (pwOk : String → Bool) (sess : AList) (method : Method)
    (pw : String) : Response × AList :=
  match method with
  | .post =>
      if pwOk pw then (.redirect "/admin" 302, aset sess "admin_logged_in" (.bool true))
      else (.loginPage (some "Incorrect password."), sess)
  | .get => (.loginPage none, sess)

/-- Route `GET|POST /admin/password-reset` (lines 338-384).  `envKey` is
`ADMIN_RESET_KEY`, `genHash` is werkzeug's `generate_password_hash`,
`auth` is the admin-auth file; the result is the response, the auth file
afterwards, and the session afterwards. -/
def route_password_reset (envKey : String) (genHash : String → String)
    (auth : FileContent) (sess : AList) (method : Method)
    (rk pw confirm : String) : Response × FileContent × AList :=
  if envKey = "" then
    (.resetPage (some "Password reset is not enabled. Set ADMIN_RESET_KEY in your environment variables.") none,
     auth, sess)
  else
    match method with
    | .post =>
        if rk ≠ envKey then
          (.resetPage (some "Incorrect reset key.") none, auth, sess)
        else if pw = "" ∨ pw.length < 8 then
          (.resetPage (some "Password must be at least 8 characters.") none, auth, sess)
        else if pw ≠ confirm then
          (.resetPage (some "Passwords do not match.") none, auth, sess)
        else
          (.resetPage none (some "Password updated. You can now sign in with the new password."),
           .parsed (.obj [("password_hash", .str (genHash pw))]),
           aremove sess "admin_logged_in")
    | .get => (.resetPage none none, auth, sess)

/-- Route `POST /admin/reset-counters` (lines 387-392). -/
def route_reset_counters (sess : AList) (fc : FileContent) : Response × FileContent :=
  if is_admin_logged_in sess then (.redirect "/admin" 302, save_counters [])
  else (.redirect "/admin/login" 302, fc)

/-- Iterated `increment_counter` on the same slug and key: the list of
returned values and the final file state, `none` as soon as a call
raises. -/
def incrementN (dslug slug key : String) : FileContent → Nat → Option (List Int × FileContent)
  | fc, 0 => some ([], fc)
  | fc, n + 1 =>
      match increment_counter dslug fc slug key with
      | (some v, fc') => (incrementN dslug slug key fc' n).map (fun p => (v :: p.1, p.2))
      | (none, _) => none

section Lemmas

theorem alookup_aset_self (d : AList) (key : String) (val : Json) :
    alookup (aset d key val) key = some val := by
  induction d with
  | nil => simp [aset, alookup]
  | cons kv rest ih =>
      obtain ⟨k, v⟩ := kv
      by_cases h : k = key
      · simp [aset, alookup, h]
      · simp [aset, alookup, h, ih]

theorem mem_aset_self (d : AList) (key : String) (val : Json) :
    (key, val) ∈ aset d key val := by
  induction d with
  | nil => simp [aset]
  | cons kv rest ih =>
      obtain ⟨k, v⟩ := kv
      by_cases h : k = key
      · subst h; simp [aset]
      · simp [aset, h, ih]

theorem alookup_append_some {d₁ : AList} {key : String} {x : Json}
    (d₂ : AList) (h : alookup d₁ key = some x) :
    alookup (d₁ ++ d₂) key = some x := by
  induction d₁ with
  | nil => simp [alookup] at h
  | cons kv rest ih =>
      obtain ⟨k, v⟩ := kv
      by_cases hk : k = key
      · simp_all [alookup]
      · simp [alookup, hk] at h ⊢
        exact ih h

theorem alookup_asetdefault_some {d : AList} {key : String} {x : Json}
    (k' : String) (v' : Json) (h : alookup d key = some x) :
    alookup (asetdefault d k' v') key = some x := by
  unfold asetdefault
  split
  · exact h
  · exact alookup_append_some _ h

theorem alookup_applyDefaults_some {d : AList} {key : String} {x : Json}
    (h : alookup d key = some x) :
    alookup (applyDefaults d) key = some x := by
  unfold applyDefaults
  generalize DEFAULT_COUNTERS = ds
  induction ds generalizing d with
  | nil => simpa using h
  | cons kv rest ih =>
      simp only [List.foldl_cons]
      exact ih (alookup_asetdefault_some kv.1 kv.2 h)

theorem migrationCond_of_obj_mem {d : AList} {k : String} {cd : AList}
    (h : (k, Json.obj cd) ∈ d) : migrationCond d = false := by
  have hany : d.any (fun kv => kv.2.isObj) = true :=
    List.any_eq_true.2 ⟨(k, .obj cd), h, rfl⟩
  simp [migrationCond, hany]

/-- Loading a freshly saved document whose `slug` entry is an object gives
the document back unchanged: it parses as a dict and the legacy-migration
guard is off (some value is a dict). -/
theorem load_counters_save_of_obj_mem {d : AList} {k : String} {cd : AList}
    (dslug : String) (h : (k, Json.obj cd) ∈ d) :
    load_counters dslug (save_counters d) = (d, save_counters d) := by
  simp [load_counters, save_counters, migrationCond_of_obj_mem h]

theorem countersFor_aset_obj (data : AList) (slug : String) (cd : AList) :
    countersFor (aset data slug (.obj cd)) slug = some (applyDefaults cd) := by
  simp [countersFor, alookup_aset_self]

/-- One successful increment: when the read contract shows value `v` for
`key`, `increment_counter` returns `v + 1` and the new state again shows
`v + 1` for `key`. -/
theorem increment_counter_step {dslug slug key : String} {fc : FileContent}
    {m : AList} {v : Int}
    (hm : countersFor (load_counters dslug fc).1 slug = some m)
    (hk : alookup m key = some (.num v)) :
    ∃ fc' m',
      increment_counter dslug fc slug key = (some (v + 1), fc') ∧
      countersFor (load_counters dslug fc').1 slug = some m' ∧
      alookup m' key = some (.num (v + 1)) := by
  refine ⟨save_counters (aset (load_counters dslug fc).1 slug
      (.obj (aset m key (.num (v + 1))))),
    applyDefaults (aset m key (.num (v + 1))), ?_, ?_, ?_⟩
  · simp [increment_counter, hm, hk, pyInt]
  · rw [load_counters_save_of_obj_mem dslug (mem_aset_self _ slug _)]
    exact countersFor_aset_obj _ _ _
  · exact alookup_applyDefaults_some (alookup_aset_self _ _ _)

/-- N successful increments from any state satisfying the read contract:
the calls return `v+1, …, v+N` and the final state shows `v + N`. -/
theorem incrementN_spec (dslug slug key : String) :
    ∀ (N : Nat) (fc : FileContent) (m : AList) (v : Int),
      countersFor (load_counters dslug fc).1 slug = some m →
      alookup m key = some (.num v) →
      ∃ fcN mN,
        incrementN dslug slug key fc N
          = some ((List.range N).map (fun i : Nat => v + (i : Int) + 1), fcN) ∧
        countersFor (load_counters dslug fcN).1 slug = some mN ∧
        alookup mN key = some (.num (v + N)) := by
  intro N
  induction N with
  | zero =>
      intro fc m v hm hk
      exact ⟨fc, m, by simp [incrementN], hm, by simpa using hk⟩
  | succ n ih =>
      intro fc m v hm hk
      obtain ⟨fc', m', hstep, hm', hk'⟩ := increment_counter_step hm hk
      obtain ⟨fcN, mN, hrun, hmN, hkN⟩ := ih fc' m' (v + 1) hm' hk'
      refine ⟨fcN, mN, ?_, hmN, ?_⟩
      · have hl : ((v + 1) :: (List.range n).map (fun i : Nat => v + 1 + (i : Int) + 1))
            = (List.range (n + 1)).map (fun i : Nat => v + (i : Int) + 1) := by
          rw [List.range_succ_eq_map, List.map_cons, List.map_map]
          congr 1
          · push_cast; ring
          · apply List.map_congr_left
            intro i _
            simp only [Function.comp_apply]
            push_cast; ring
        simp only [incrementN, hstep, hrun, Option.map_some']
        rw [hl]
      · have : v + 1 + (n : Int) = v + ((n : Int) + 1) := by ring
        rw [this] at hkN
        simpa using hkN

theorem alookup_aset_ne (d : AList) {key key' : String} (val : Json)
    (h : key' ≠ key) : alookup (aset d key val) key' = alookup d key' := by
  have h' : ¬ key = key' := fun he => h he.symm
  induction d with
  | nil => simp [aset, alookup, h']
  | cons kv rest ih =>
      obtain ⟨k, v⟩ := kv
      by_cases hk : k = key
      · subst hk
        simp [aset, alookup, h']
      · simp [aset, alookup, hk, ih]

theorem alookup_aremove_self (d : AList) (key : String) :
    alookup (aremove d key) key = none := by
  induction d with
  | nil => rfl
  | cons kv rest ih =>
      obtain ⟨k, v⟩ := kv
      by_cases h : k = key
      · simpa [aremove, List.filter_cons, h] using ih
      · simp only [aremove, List.filter_cons, ne_eq, decide_not] at ih ⊢
        simp [alookup, h, ih]

theorem str_append_empty (s : String) : s ++ "" = s := by
  cases s with
  | mk l => show String.mk (l ++ []) = String.mk l
            rw [List.append_nil]

theorem str_append_assoc (a b c : String) : a ++ b ++ c = a ++ (b ++ c) := by
  cases a with
  | mk la =>
      cases b with
      | mk lb =>
          cases c with
          | mk lc => show String.mk (la ++ lb ++ lc) = String.mk (la ++ (lb ++ lc))
                     rw [List.append_assoc]

theorem crlfJoin_cons₂ (x y : String) (rest : List String) :
    crlfJoin (x :: y :: rest) = x ++ "\r\n" ++ crlfJoin (y :: rest) := rfl

/-- Joining a line list that ends with a given line and the trailing empty
line produces a string ending in CRLF, that line, CRLF. -/
theorem crlfJoin_snoc_pair :
    ∀ (l : List String) (x y : String),
      ∃ t, crlfJoin (x :: (l ++ [y, ""])) = t ++ ("\r\n" ++ (y ++ "\r\n")) := by
  intro l
  induction l with
  | nil =>
      intro x y
      refine ⟨x, ?_⟩
      show x ++ "\r\n" ++ (y ++ "\r\n" ++ "") = x ++ ("\r\n" ++ (y ++ "\r\n"))
      rw [str_append_empty, str_append_assoc]
  | cons a l ih =>
      intro x y
      obtain ⟨t, ht⟩ := ih a y
      refine ⟨x ++ "\r\n" ++ t, ?_⟩
      show x ++ "\r\n" ++ crlfJoin (a :: (l ++ [y, ""])) = _
      rw [ht, ← str_append_assoc]

/-- Any line list with the fixed vCard header and footer joins to a
string that starts with the BEGIN line plus CRLF and ends with CRLF, the
END line and CRLF. -/
theorem vcf_shape (L : List String) :
    (∃ t, crlfJoin ("BEGIN:VCARD" :: "VERSION:3.0" :: (L ++ ["END:VCARD", ""]))
        = "BEGIN:VCARD\r\n" ++ t) ∧
    (∃ t, crlfJoin ("BEGIN:VCARD" :: "VERSION:3.0" :: (L ++ ["END:VCARD", ""]))
        = t ++ "\r\nEND:VCARD\r\n") := by
  constructor
  · exact ⟨crlfJoin ("VERSION:3.0" :: (L ++ ["END:VCARD", ""])), rfl⟩
  · obtain ⟨t, ht⟩ := crlfJoin_snoc_pair ("VERSION:3.0" :: L) "BEGIN:VCARD" "END:VCARD"
    refine ⟨t, ?_⟩
    simp only [List.cons_append] at ht
    rw [ht]
    rfl

end Lemmas

section Claims

/-- C1: in the single-threaded case, for every slug and counter key whose
value the read contract shows, one `increment_counter` returns the new
value and a subsequent `get_counters` shows a value one greater than
before; and repeating `increment_counter` N times from any such starting
state returns the successive new values `v+1, …, v+N` and increases the
stored value of the key by exactly N. -/
theorem increment_then_read_spec (dslug slug key : String) (fc : FileContent)
    (m : AList) (v : Int) (N : Nat)
    (hm : (get_counters dslug fc slug).1 = some m)
    (hk : alookup m key = some (.num v)) :
    (∃ fc₁ m₁,
      increment_counter dslug fc slug key = (some (v + 1), fc₁) ∧
      (get_counters dslug fc₁ slug).1 = some m₁ ∧
      alookup m₁ key = some (.num (v + 1))) ∧
    (∃ fcN mN,
      incrementN dslug slug key fc N
        = some ((List.range N).map (fun i : Nat => v + (i : Int) + 1), fcN) ∧
      (get_counters dslug fcN slug).1 = some mN ∧
      alookup mN key = some (.num (v + N))) := by
  have hm' : countersFor (load_counters dslug fc).1 slug = some m := hm
  constructor
  · obtain ⟨fc₁, m₁, hstep, hm₁, hk₁⟩ := increment_counter_step hm' hk
    exact ⟨fc₁, m₁, hstep, hm₁, hk₁⟩
  · obtain ⟨fcN, mN, hrun, hmN, hkN⟩ := incrementN_spec dslug slug key N fc m v hm' hk
    exact ⟨fcN, mN, hrun, hmN, hkN⟩

/-- Witness for C1 at a concrete state: a fresh (missing) counters file,
slug "s", key "whatsapp_clicks", starting value 0, two increments. -/
theorem increment_then_read_spec_witness :
    (increment_counter "wjm" .missing "s" "whatsapp_clicks").1 = some ((0 : Int) + 1) ∧
    (incrementN "wjm" "s" "whatsapp_clicks" .missing 2).isSome = true := by
  obtain ⟨⟨fc₁, m₁, h1, _, _⟩, ⟨fcN, mN, h2, _, _⟩⟩ :=
    increment_then_read_spec "wjm" "s" "whatsapp_clicks" .missing DEFAULT_COUNTERS 0 2 rfl rfl
  refine ⟨?_, ?_⟩
  · rw [h1]
  · rw [h2]
    rfl

/-- C4: after the admin full counter reset (which writes the empty
counters document), reading any slug returns exactly the six known
counter names (`DEFAULT_COUNTERS`), each with value zero. -/
theorem reset_counters_then_read (sess : AList) (fc : FileContent)
    (dslug slug : String) (h : is_admin_logged_in sess = true) :
    route_reset_counters sess fc = (.redirect "/admin" 302, save_counters []) ∧
    get_counters dslug (save_counters []) slug = (some DEFAULT_COUNTERS, save_counters []) := by
  constructor
  · simp [route_reset_counters, h]
  · rfl

/-- Witness for C4: a logged-in session and an arbitrary slug. -/
theorem reset_counters_then_read_witness :
    route_reset_counters [("admin_logged_in", .bool true)] .missing
      = (.redirect "/admin" 302, save_counters []) ∧
    get_counters "wjm" (save_counters []) "anyslug"
      = (some DEFAULT_COUNTERS, save_counters []) := by
  exact reset_counters_then_read [("admin_logged_in", .bool true)] .missing "wjm" "anyslug" rfl

/-- C8 counterexample: when the counters file parses to a non-object
value (here the JSON array `[]`), `_load_counters` returns the empty
document but leaves the on-disk file unchanged — it is not replaced with
the empty document, contrary to the claim. -/
theorem load_counters_nonobject_counterexample :
    load_counters "wjm" (.parsed (.arr [])) = ([], .parsed (.arr [])) ∧
    FileContent.parsed (.arr []) ≠ FileContent.parsed (.obj []) := by
  refine ⟨rfl, ?_⟩
  intro h
  injection h with h'
  exact Json.noConfusion h'

/-- C8 amended: loading a counters file that is unparseable silently
replaces it with the empty document and returns the empty map; loading a
file that parses to a non-object value returns the empty map but leaves
the file unchanged.  In both cases no error is surfaced. -/
theorem load_counters_corrupt_amended (dslug : String) (j : Json)
    (hj : j.isObj = false) :
    load_counters dslug .unparseable = ([], save_counters []) ∧
    load_counters dslug (.parsed j) = ([], .parsed j) := by
  refine ⟨rfl, ?_⟩
  cases j <;> simp_all [load_counters, Json.isObj]

/-- Witness for C8 amended, at the JSON array `[]`. -/
theorem load_counters_corrupt_amended_witness :
    load_counters "wjm" .unparseable = ([], save_counters []) ∧
    load_counters "wjm" (.parsed (.arr [])) = ([], .parsed (.arr [])) := by
  exact load_counters_corrupt_amended "wjm" (.arr []) rfl

/-- C9 counterexample: the slug "x" is a key of the cards document, but
its record is the empty object, which is falsy, so `get_card` returns the
absent signal (`None`) instead of a record. -/
theorem get_card_falsy_counterexample :
    alookup [("x", Json.obj [])] "x" = some (.obj []) ∧
    get_card [("x", Json.obj [])] "x" = some none := ⟨rfl, rfl⟩

/-- C9 amended: for every slug whose entry in the cards document is a
non-empty JSON object, `get_card` returns a record (not the absent
signal) whose `slug` field equals the requested slug and whose other
fields equal those of the stored card record. -/
theorem get_card_known_slug_amended (cards : AList) (slug : String)
    (fields : AList) (h : alookup cards slug = some (.obj fields))
    (hne : fields ≠ []) :
    get_card cards slug = some (some (aset fields "slug" (.str slug))) ∧
    alookup (aset fields "slug" (.str slug)) "slug" = some (.str slug) ∧
    ∀ key, key ≠ "slug" →
      alookup (aset fields "slug" (.str slug)) key = alookup fields key := by
  refine ⟨?_, alookup_aset_self _ _ _, fun key hk => alookup_aset_ne _ _ hk⟩
  obtain _ | ⟨kv, rest⟩ := fields
  · exact absurd rfl hne
  · simp [get_card, h, pyTruthy]

/-- Witness for C9 amended: a one-field card record, with the field
preservation instantiated at the "org" key. -/
theorem get_card_known_slug_amended_witness :
    get_card [("x", Json.obj [("org", .str "O")])] "x"
      = some (some (aset [("org", Json.str "O")] "slug" (.str "x"))) ∧
    alookup (aset [("org", Json.str "O")] "slug" (.str "x")) "slug"
      = some (.str "x") ∧
    alookup (aset [("org", Json.str "O")] "slug" (.str "x")) "org"
      = alookup [("org", Json.str "O")] "org" := by
  obtain ⟨h1, h2, h3⟩ := get_card_known_slug_amended [("x", .obj [("org", .str "O")])] "x"
    [("org", .str "O")] rfl (by simp)
  exact ⟨h1, h2, h3 "org" (by decide)⟩

/-- C3: for every slug not present in the card directory, each
slug-parameterized route (`/c/<slug>`, `/c/<slug>.vcf`, `/qr/<slug>.png`
and all `/go/*` routes) returns the 404 not-found response and leaves the
counters file untouched (no increment is performed). -/
theorem unknown_slug_not_found (cards : AList) (dslug slug hostUrl : String)
    (fc : FileContent) (photoRead : String → Option String)
    (text subject : Option String)
    (h : alookup cards slug = none) :
    route_card cards dslug fc slug = some (.notFound, fc) ∧
    route_vcard cards dslug fc slug photoRead = some (.notFound, fc) ∧
    route_qr cards fc slug hostUrl = some (.notFound, fc) ∧
    route_go_whatsapp cards dslug fc slug text = some (.notFound, fc) ∧
    route_go_email cards dslug fc slug subject = some (.notFound, fc) ∧
    route_go_map cards dslug fc slug = some (.notFound, fc) ∧
    route_go_share cards dslug fc slug = some (.notFound, fc) ∧
    route_go_nfc cards dslug fc slug = some (.notFound, fc) := by
  have hgc : get_card cards slug = some none := by simp [get_card, h]
  refine ⟨?_, ?_, ?_, ?_, ?_, ?_, ?_, ?_⟩ <;>
    simp [route_card, route_vcard, route_qr, route_go_whatsapp, route_go_email,
      route_go_map, route_go_share, route_go_nfc, hgc]

/-- Witness for C3: the empty card directory and slug "x". -/
theorem unknown_slug_not_found_witness :
    route_card [] "wjm" .missing "x" = some (.notFound, .missing) ∧
    route_vcard [] "wjm" .missing "x" (fun _ => none) = some (.notFound, .missing) ∧
    route_qr [] .missing "x" "http://localhost/" = some (.notFound, .missing) ∧
    route_go_whatsapp [] "wjm" .missing "x" none = some (.notFound, .missing) ∧
    route_go_email [] "wjm" .missing "x" none = some (.notFound, .missing) ∧
    route_go_map [] "wjm" .missing "x" = some (.notFound, .missing) ∧
    route_go_share [] "wjm" .missing "x" = some (.notFound, .missing) ∧
    route_go_nfc [] "wjm" .missing "x" = some (.notFound, .missing) := by
  exact unknown_slug_not_found [] "wjm" "x" "http://localhost/" .missing
    (fun _ => none) none none rfl

/-- C5: for a known slug whose card has `whatsapp_e164 = "27825615932"`,
`/go/whatsapp/<slug>?text=Hello` redirects to
`https://wa.me/27825615932?text=Hello`; with an empty or absent `text`
parameter it redirects to `https://wa.me/27825615932` with no query
string; in each case exactly one increment of the slug's
`whatsapp_clicks` counter is performed (the stored value goes from `v` to
`v + 1`). -/
theorem go_whatsapp_redirect_and_count (cards : AList) (dslug slug : String)
    (fc : FileContent) (c m : AList) (v : Int)
    (hc : get_card cards slug = some (some c))
    (hwa : alookup c "whatsapp_e164" = some (.str "27825615932"))
    (hm : (get_counters dslug fc slug).1 = some m)
    (hv : alookup m "whatsapp_clicks" = some (.num v)) :
    ∃ fc₁ m₁,
      route_go_whatsapp cards dslug fc slug (some "Hello")
        = some (.redirect "https://wa.me/27825615932?text=Hello" 302, fc₁) ∧
      route_go_whatsapp cards dslug fc slug (some "")
        = some (.redirect "https://wa.me/27825615932" 302, fc₁) ∧
      route_go_whatsapp cards dslug fc slug none
        = some (.redirect "https://wa.me/27825615932" 302, fc₁) ∧
      increment_counter dslug fc slug "whatsapp_clicks" = (some (v + 1), fc₁) ∧
      (get_counters dslug fc₁ slug).1 = some m₁ ∧
      alookup m₁ "whatsapp_clicks" = some (.num (v + 1)) := by
  have hm' : countersFor (load_counters dslug fc).1 slug = some m := hm
  obtain ⟨fc₁, m₁, hstep, hm₁, hk₁⟩ := increment_counter_step hm' hv
  refine ⟨fc₁, m₁, ?_, ?_, ?_, hstep, hm₁, hk₁⟩
  all_goals simp [route_go_whatsapp, hc, hstep, hwa, pyStrOf, quote]
  all_goals rfl

/-- Witness for C5: one card with the given number, a fresh counters
file, starting counter value 0. -/
theorem go_whatsapp_redirect_and_count_witness :
    (route_go_whatsapp [("s", .obj [("whatsapp_e164", .str "27825615932")])]
        "wjm" .missing "s" (some "Hello")).map Prod.fst
      = some (.redirect "https://wa.me/27825615932?text=Hello" 302) ∧
    (route_go_whatsapp [("s", .obj [("whatsapp_e164", .str "27825615932")])]
        "wjm" .missing "s" none).map Prod.fst
      = some (.redirect "https://wa.me/27825615932" 302) ∧
    (increment_counter "wjm" .missing "s" "whatsapp_clicks").1 = some ((0 : Int) + 1) := by
  obtain ⟨fc₁, m₁, h1, h2, h3, h4, _, _⟩ :=
    go_whatsapp_redirect_and_count
      [("s", .obj [("whatsapp_e164", .str "27825615932")])] "wjm" "s" .missing
      [("whatsapp_e164", .str "27825615932"), ("slug", .str "s")] DEFAULT_COUNTERS 0
      rfl rfl rfl rfl
  refine ⟨?_, ?_, ?_⟩
  · rw [h1]; rfl
  · rw [h3]; rfl
  · rw [h4]

/-- C6: for every submitted password rejected by `password_ok`, the POST
login handler re-renders the login page with an error and leaves the
session unchanged (the `admin_logged_in` flag is not set), so a
subsequent GET `/admin` in the same session still redirects to the login
page. -/
theorem admin_login_wrong_password (pwOk : String → Bool) (sess cards : AList)
    (dslug pw : String) (fc : FileContent)
    (hpw : pwOk pw = false) (hsess : is_admin_logged_in sess = false) :
    route_admin_login pwOk sess .post pw
      = (.loginPage (some "Incorrect password."), sess) ∧
    route_admin cards dslug fc sess = some (.redirect "/admin/login" 302, fc) := by
  constructor
  · simp [route_admin_login, hpw]
  · simp [route_admin, hsess]

/-- Witness for C6: a password check that rejects everything and a fresh
session. -/
theorem admin_login_wrong_password_witness :
    route_admin_login (fun _ => false) [] .post "guess"
      = (.loginPage (some "Incorrect password."), []) ∧
    route_admin [] "wjm" .missing [] = some (.redirect "/admin/login" 302, .missing) := by
  exact admin_login_wrong_password (fun _ => false) [] [] "wjm" "guess" .missing rfl rfl

/-- C7: a POST to the password-reset route with a wrong reset key, or a
new password shorter than 8 characters, or (with a correct key and
sufficient length) a confirmation that differs from the new password,
returns an error page and leaves both the persisted admin password hash
file and the session unchanged. -/
theorem password_reset_rejected_unchanged (envKey : String)
    (genHash : String → String) (auth : FileContent) (sess : AList)
    (rk pw confirm : String) (henv : envKey ≠ "")
    (h : rk ≠ envKey ∨ (rk = envKey ∧ (pw = "" ∨ pw.length < 8)) ∨
         (rk = envKey ∧ 8 ≤ pw.length ∧ pw ≠ confirm)) :
    ∃ msg, route_password_reset envKey genHash auth sess .post rk pw confirm
      = (.resetPage (some msg) none, auth, sess) := by
  rcases h with h | ⟨hk, hlen⟩ | ⟨hk, hlen, hne⟩
  · refine ⟨"Incorrect reset key.", ?_⟩
    simp [route_password_reset, henv, h]
  · refine ⟨"Password must be at least 8 characters.", ?_⟩
    subst hk
    simp [route_password_reset, henv, hlen]
  · refine ⟨"Passwords do not match.", ?_⟩
    subst hk
    have hpw : ¬ (pw = "" ∨ pw.length < 8) := by
      push_neg
      refine ⟨?_, by omega⟩
      intro he
      rw [he] at hlen
      simp at hlen
    simp [route_password_reset, henv, hpw, hne]

/-- Witness for C7 at the mismatched-confirmation case. -/
theorem password_reset_rejected_unchanged_witness :
    (route_password_reset "resetkey" (fun p => p) .missing [] .post
      "resetkey" "longenough" "different").2 = (FileContent.missing, ([] : AList)) := by
  obtain ⟨msg, hmsg⟩ := password_reset_rejected_unchanged "resetkey" (fun p => p)
    .missing [] "resetkey" "longenough" "different" (by decide)
    (Or.inr (Or.inr ⟨rfl, by decide, by decide⟩))
  rw [hmsg]

/-- C10: a successful POST to the password-reset route (reset flow
enabled, correct key, password of at least 8 characters, matching
confirmation) persists the new password hash to the auth file and removes
the `admin_logged_in` flag from the session, logging out any admin
session in that browser. -/
theorem password_reset_success_logs_out (envKey : String)
    (genHash : String → String) (auth : FileContent) (sess : AList)
    (pw : String) (henv : envKey ≠ "") (hlen : 8 ≤ pw.length) :
    route_password_reset envKey genHash auth sess .post envKey pw pw
      = (.resetPage none (some "Password updated. You can now sign in with the new password."),
         .parsed (.obj [("password_hash", .str (genHash pw))]),
         aremove sess "admin_logged_in") ∧
    is_admin_logged_in (aremove sess "admin_logged_in") = false := by
  have hpw : ¬ (pw = "" ∨ pw.length < 8) := by
    push_neg
    refine ⟨?_, by omega⟩
    intro he
    rw [he] at hlen
    simp at hlen
  constructor
  · simp [route_password_reset, henv, hpw]
  · simp [is_admin_logged_in, alookup_aremove_self, pyTruthy]

/-- Witness for C10: a logged-in session, key "resetkey", password
"longenough". -/
theorem password_reset_success_logs_out_witness :
    route_password_reset "resetkey" (fun p => p) .missing
        [("admin_logged_in", Json.bool true)] .post "resetkey" "longenough" "longenough"
      = (.resetPage none (some "Password updated. You can now sign in with the new password."),
         .parsed (.obj [("password_hash", .str "longenough")]), []) ∧
    is_admin_logged_in ([] : AList) = false := by
  exact password_reset_success_logs_out "resetkey" (fun p => p) .missing
    [("admin_logged_in", .bool true)] "longenough" (by decide) (by decide)

/-- C2: for every card record the `/c/<slug>.vcf` route serves, the
payload starts with the line `BEGIN:VCARD`, its lines are joined with
CRLF and it ends with the line `END:VCARD` (followed by the final CRLF
the code emits via the trailing empty line); when the referenced photo
file cannot be read, the `PHOTO` line is omitted and the rest of the
payload is still produced. -/
theorem vcard_payload_spec (cards : AList) (dslug slug pname : String)
    (fc fc₁ : FileContent) (n : Int) (photoRead : String → Option String)
    (c : AList) (fn org title wa off em url : Json)
    (hc : get_card cards slug = some (some c))
    (hinc : increment_counter dslug fc slug "contact_shared" = (some n, fc₁))
    (hpn : (alookup c "photo_filename").getD (.str "profile.jpg") = .str pname)
    (hfn : alookup c "contact_save_name" = some fn)
    (horg : alookup c "org" = some org)
    (hti : alookup c "title" = some title)
    (hwa : alookup c "whatsapp_e164" = some wa)
    (hoff : alookup c "office_e164" = some off)
    (hem : alookup c "email" = some em)
    (hurl : alookup c "website_url" = some url) :
    ∃ body,
      route_vcard cards dslug fc slug photoRead
        = some (.vcf body (slug.replace "/" "_" ++ ".vcf"), fc₁) ∧
      (∃ t, body = "BEGIN:VCARD\r\n" ++ t) ∧
      (∃ t, body = t ++ "\r\nEND:VCARD\r\n") ∧
      (photoRead ("static/" ++ pname) = none →
        body = crlfJoin ["BEGIN:VCARD", "VERSION:3.0",
          "FN:" ++ pyStrOf fn, "ORG:" ++ pyStrOf org, "TITLE:" ++ pyStrOf title,
          "TEL;TYPE=CELL,VOICE:+" ++ pyStrOf wa,
          "TEL;TYPE=WORK,VOICE:+" ++ pyStrOf off,
          "EMAIL;TYPE=WORK:" ++ pyStrOf em, "URL:" ++ pyStrOf url,
          "END:VCARD", ""]) := by
  rcases hp : photoRead ("static/" ++ pname) with _ | s
  · have hsh := vcf_shape ["FN:" ++ pyStrOf fn, "ORG:" ++ pyStrOf org,
      "TITLE:" ++ pyStrOf title, "TEL;TYPE=CELL,VOICE:+" ++ pyStrOf wa,
      "TEL;TYPE=WORK,VOICE:+" ++ pyStrOf off, "EMAIL;TYPE=WORK:" ++ pyStrOf em,
      "URL:" ++ pyStrOf url]
    refine ⟨_, ?_, hsh.1, hsh.2, fun _ => rfl⟩
    simp [route_vcard, hc, hinc, hpn, hp, buildVcfLines,
      hfn, horg, hti, hwa, hoff, hem, hurl]
  · by_cases hs : s = ""
    · subst hs
      have hsh := vcf_shape ["FN:" ++ pyStrOf fn, "ORG:" ++ pyStrOf org,
        "TITLE:" ++ pyStrOf title, "TEL;TYPE=CELL,VOICE:+" ++ pyStrOf wa,
        "TEL;TYPE=WORK,VOICE:+" ++ pyStrOf off, "EMAIL;TYPE=WORK:" ++ pyStrOf em,
        "URL:" ++ pyStrOf url]
      refine ⟨_, ?_, hsh.1, hsh.2, fun h' => ?_⟩
      · simp [route_vcard, hc, hinc, hpn, hp, buildVcfLines,
          hfn, horg, hti, hwa, hoff, hem, hurl]
      · rfl
    · have hsh := vcf_shape ["FN:" ++ pyStrOf fn, "ORG:" ++ pyStrOf org,
        "TITLE:" ++ pyStrOf title, "TEL;TYPE=CELL,VOICE:+" ++ pyStrOf wa,
        "TEL;TYPE=WORK,VOICE:+" ++ pyStrOf off, "EMAIL;TYPE=WORK:" ++ pyStrOf em,
        "URL:" ++ pyStrOf url, "PHOTO;ENCODING=b;TYPE=JPEG:" ++ s]
      refine ⟨_, ?_, hsh.1, hsh.2, fun h' => ?_⟩
      · simp [route_vcard, hc, hinc, hpn, hp, buildVcfLines,
          hfn, horg, hti, hwa, hoff, hem, hurl, hs]
      · exact Option.noConfusion h'

/-- Witness for C2: a complete card record, a fresh counters file and an
unreadable photo. -/
theorem vcard_payload_spec_witness :
    (route_vcard
        [("s", .obj [("contact_save_name", .str "A"), ("org", .str "B"),
          ("title", .str "T"), ("whatsapp_e164", .str "1"),
          ("office_e164", .str "2"), ("email", .str "E"),
          ("website_url", .str "U")])]
        "wjm" .missing "s" (fun _ => none)).isSome = true := by
  obtain ⟨body, hroute, _, _, _⟩ :=
    vcard_payload_spec
      [("s", .obj [("contact_save_name", .str "A"), ("org", .str "B"),
        ("title", .str "T"), ("whatsapp_e164", .str "1"),
        ("office_e164", .str "2"), ("email", .str "E"),
        ("website_url", .str "U")])]
      "wjm" "s" "profile.jpg" .missing
      (increment_counter "wjm" .missing "s" "contact_shared").2 1
      (fun _ => none)
      [("contact_save_name", .str "A"), ("org", .str "B"), ("title", .str "T"),
        ("whatsapp_e164", .str "1"), ("office_e164", .str "2"),
        ("email", .str "E"), ("website_url", .str "U"), ("slug", .str "s")]
      (.str "A") (.str "B") (.str "T") (.str "1") (.str "2") (.str "E") (.str "U")
      rfl rfl rfl rfl rfl rfl rfl rfl rfl rfl
  rw [hroute]
  rfl

end Claims

end CardApp
